import Mathlib

/- Verification of the Outfit-intelligence-tool color pipeline.

The JavaScript sources are shallowly embedded: JS numbers become rationals
(exact arithmetic), Math.round becomes floor of x + 1/2, Math.exp and
Math.sqrt become their real counterparts, arrays become lists, and the
object-literal methods become plain functions.  Local variables of the JS
functions are hoisted to named definitions so theorems can refer to them. -/

unseal Rat.mul Rat.add Rat.inv Rat.sub Rat.ofScientific

/-- Rounding as performed by the JavaScript function Math.round:
floor of x + 1/2 (this matches Math.round on every real argument). -/
def jsRound (x : ℚ) : ℤ := (x + 1/2).floor

theorem jsRound_eq (x : ℚ) : jsRound x = ⌊x + 1/2⌋ := by
  rw [jsRound, Rat.floor_def', ← Rat.floor_def]

theorem jsRound_nonneg {x : ℚ} (hx : 0 ≤ x) : 0 ≤ jsRound x := by
  rw [jsRound_eq]
  exact Int.le_floor.mpr (by push_cast; linarith)

theorem jsRound_le {x : ℚ} {n : ℤ} (hx : x ≤ (n : ℚ)) : jsRound x ≤ n := by
  rw [jsRound_eq]
  have h1 : x + 1/2 < ((n + 1 : ℤ) : ℚ) := by push_cast; linarith
  exact Int.lt_add_one_iff.mp (Int.floor_lt.mpr h1)

/-- All pairs (i, j) with i < j combined by f, in the iteration order of the
nested for-loops used throughout the sources. -/
def pairwise2 {α β : Type} (f : α → α → β) : List α → List β
  | [] => []
  | x :: xs => (xs.map (f x)) ++ pairwise2 f xs

theorem pairwise2_length_ge_three {α β : Type} (f : α → α → β) (l : List α)
    (h : 3 ≤ l.length) : 3 ≤ (pairwise2 f l).length := by
  rcases l with _ | ⟨a, _ | ⟨b, _ | ⟨c, rest⟩⟩⟩
  · simp at h
  · simp at h
  · simp at h
  · simp only [pairwise2, List.length_append, List.length_map, List.length_cons]
    omega

/-- Maximum of a list of rationals, mirroring Math.max applied to a spread
array; the sources only evaluate it on nonempty lists, so the value on []
never matters (we pick 0). -/
def listMax : List ℚ → ℚ
  | [] => 0
  | [x] => x
  | x :: y :: xs => max x (listMax (y :: xs))

/-- Minimum of a list of rationals, mirroring Math.min on a spread array. -/
def listMin : List ℚ → ℚ
  | [] => 0
  | [x] => x
  | x :: y :: xs => min x (listMin (y :: xs))

/-- An HSL triple as stored on a ColorRecord (JS numbers as rationals). -/
structure HSLq where
  h : ℚ
  s : ℚ
  l : ℚ
deriving DecidableEq

/-- The part of a ColorRecord that the harmony and scoring code reads. -/
structure ColorRecord where
  hsl : HSLq
deriving DecidableEq

instance : Inhabited ColorRecord := ⟨⟨⟨0, 0, 0⟩⟩⟩

/-- Rounded integer HSL triple as returned by rgbToHsl. -/
structure HSLInt where
  h : ℤ
  s : ℤ
  l : ℤ
deriving DecidableEq

/-- A harmony classification: its type tag and numeric score (the explanation
and details fields of the JS object are presentation data and are omitted). -/
structure Harmony where
  type : String
  score : ℤ
deriving DecidableEq

namespace ColorAnalysis

/-- The local variable max of rgbToHsl: largest of the three channels. -/
def maxC (r g b : ℚ) : ℚ := max r (max g b)

/-- The local variable min of rgbToHsl: smallest of the three channels. -/
def minC (r g b : ℚ) : ℚ := min r (min g b)

/-- The lightness l = (max + min) / 2 of rgbToHsl, before scaling to percent. -/
def hslL (r g b : ℚ) : ℚ := (maxC r g b + minC r g b) / 2

/-- The saturation of rgbToHsl before scaling; 0 when max = min, otherwise
d / (2 - max - min) when l > 1/2 and d / (max + min) when l ≤ 1/2. -/
def hslS (r g b : ℚ) : ℚ :=
  if maxC r g b = minC r g b then 0
  else if 1/2 < hslL r g b then
    (maxC r g b - minC r g b) / (2 - maxC r g b - minC r g b)
  else
    (maxC r g b - minC r g b) / (maxC r g b + minC r g b)

/-- The hue of rgbToHsl before scaling to degrees; 0 when max = min, and the
three cases mirror the JS switch on which channel attains the maximum. -/
def hslH (r g b : ℚ) : ℚ :=
  if maxC r g b = minC r g b then 0
  else if maxC r g b = r then
    ((g - b) / (maxC r g b - minC r g b) + (if g < b then 6 else 0)) / 6
  else if maxC r g b = g then
    ((b - r) / (maxC r g b - minC r g b) + 2) / 6
  else
    ((r - g) / (maxC r g b - minC r g b) + 4) / 6

/-- ColorAnalysis.rgbToHsl: channels are divided by 255, h is rounded after
scaling by 360, s and l after scaling by 100. -/
def rgbToHsl (r g b : ℚ) : HSLInt :=
  ⟨jsRound (hslH (r / 255) (g / 255) (b / 255) * 360),
   jsRound (hslS (r / 255) (g / 255) (b / 255) * 100),
   jsRound (hslL (r / 255) (g / 255) (b / 255) * 100)⟩

theorem minC_le_maxC (r g b : ℚ) : minC r g b ≤ maxC r g b :=
  le_trans (min_le_left _ _) (le_max_left _ _)

theorem minC_le_fst (r g b : ℚ) : minC r g b ≤ r := min_le_left _ _

theorem minC_le_snd (r g b : ℚ) : minC r g b ≤ g :=
  le_trans (min_le_right _ _) (min_le_left _ _)

theorem minC_le_trd (r g b : ℚ) : minC r g b ≤ b :=
  le_trans (min_le_right _ _) (min_le_right _ _)

theorem fst_le_maxC (r g b : ℚ) : r ≤ maxC r g b := le_max_left _ _

theorem snd_le_maxC (r g b : ℚ) : g ≤ maxC r g b :=
  le_trans (le_max_left _ _) (le_max_right _ _)

theorem trd_le_maxC (r g b : ℚ) : b ≤ maxC r g b :=
  le_trans (le_max_right _ _) (le_max_right _ _)

theorem hslL_bounds {r g b : ℚ} (h0 : 0 ≤ minC r g b) (h1 : maxC r g b ≤ 1) :
    0 ≤ hslL r g b ∧ hslL r g b ≤ 1 := by
  have hle := minC_le_maxC r g b
  constructor
  · rw [hslL]; linarith
  · rw [hslL]; linarith

theorem hslS_bounds {r g b : ℚ} (h0 : 0 ≤ minC r g b) (h1 : maxC r g b ≤ 1) :
    0 ≤ hslS r g b ∧ hslS r g b ≤ 1 := by
  have hle := minC_le_maxC r g b
  rw [hslS]
  split_ifs with heq hl
  · norm_num
  · have hlt : minC r g b < maxC r g b := lt_of_le_of_ne hle (fun hc => heq hc.symm)
    have hmn1 : minC r g b < 1 := lt_of_lt_of_le hlt h1
    have hden : 0 < 2 - maxC r g b - minC r g b := by linarith
    constructor
    · exact div_nonneg (by linarith) (le_of_lt hden)
    · rw [div_le_one hden]; linarith
  · have hlt : minC r g b < maxC r g b := lt_of_le_of_ne hle (fun hc => heq hc.symm)
    have hmx0 : 0 < maxC r g b := lt_of_le_of_lt h0 hlt
    have hden : 0 < maxC r g b + minC r g b := by linarith
    constructor
    · exact div_nonneg (by linarith) (le_of_lt hden)
    · rw [div_le_one hden]; linarith

theorem hslH_bounds (r g b : ℚ) :
    0 ≤ hslH r g b ∧ hslH r g b < 1 := by
  have hle := minC_le_maxC r g b
  have hminr := minC_le_fst r g b
  have hming := minC_le_snd r g b
  have hminb := minC_le_trd r g b
  have hrmax := fst_le_maxC r g b
  have hgmax := snd_le_maxC r g b
  have hbmax := trd_le_maxC r g b
  rw [hslH]
  split_ifs with heq hr hgb hg
  · norm_num
  · have hd : 0 < maxC r g b - minC r g b := by
      have hlt : minC r g b < maxC r g b := lt_of_le_of_ne hle (fun hc => heq hc.symm)
      linarith
    have hq1 : -1 ≤ (g - b) / (maxC r g b - minC r g b) :=
      (le_div_iff₀ hd).mpr (by linarith)
    have hq2 : (g - b) / (maxC r g b - minC r g b) < 0 :=
      div_neg_of_neg_of_pos (by linarith) hd
    constructor
    · linarith
    · linarith
  · have hd : 0 < maxC r g b - minC r g b := by
      have hlt : minC r g b < maxC r g b := lt_of_le_of_ne hle (fun hc => heq hc.symm)
      linarith
    have hgeb : b ≤ g := le_of_not_lt hgb
    have hq1 : 0 ≤ (g - b) / (maxC r g b - minC r g b) :=
      div_nonneg (by linarith) (le_of_lt hd)
    have hq2 : (g - b) / (maxC r g b - minC r g b) ≤ 1 :=
      (div_le_one hd).mpr (by linarith)
    constructor
    · linarith
    · linarith
  · have hd : 0 < maxC r g b - minC r g b := by
      have hlt : minC r g b < maxC r g b := lt_of_le_of_ne hle (fun hc => heq hc.symm)
      linarith
    have hq1 : -1 ≤ (b - r) / (maxC r g b - minC r g b) :=
      (le_div_iff₀ hd).mpr (by linarith)
    have hq2 : (b - r) / (maxC r g b - minC r g b) ≤ 1 :=
      (div_le_one hd).mpr (by linarith)
    constructor
    · linarith
    · linarith
  · have hd : 0 < maxC r g b - minC r g b := by
      have hlt : minC r g b < maxC r g b := lt_of_le_of_ne hle (fun hc => heq hc.symm)
      linarith
    have hq1 : -1 ≤ (r - g) / (maxC r g b - minC r g b) :=
      (le_div_iff₀ hd).mpr (by linarith)
    have hq2 : (r - g) / (maxC r g b - minC r g b) ≤ 1 :=
      (div_le_one hd).mpr (by linarith)
    constructor
    · linarith
    · linarith

end ColorAnalysis

/-- Claim C1, counterexample: on the integer triple (255, 9, 10) the raw hue
1475/1476 scales to about 359.756 degrees and Math.round carries it up to
exactly 360, so the returned hue is not in the claimed half-open range
[0, 360). -/
theorem rgbToHsl_hue_eq_360 :
    (ColorAnalysis.rgbToHsl 255 9 10).h = 360 ∧
    ¬ (ColorAnalysis.rgbToHsl 255 9 10).h < 360 := by decide

/-- Claim C1, amended: for every integer RGB triple with components in
[0, 255], rgbToHsl returns h in the closed range [0, 360] (360 is attained,
see the counterexample) and s, l in [0, 100], with h rounded to the nearest
degree and s, l to the nearest percent exactly as the code does. -/
theorem rgbToHsl_range (r g b : ℕ) (hr : r ≤ 255) (hg : g ≤ 255) (hb : b ≤ 255) :
    0 ≤ (ColorAnalysis.rgbToHsl r g b).h ∧ (ColorAnalysis.rgbToHsl r g b).h ≤ 360 ∧
    0 ≤ (ColorAnalysis.rgbToHsl r g b).s ∧ (ColorAnalysis.rgbToHsl r g b).s ≤ 100 ∧
    0 ≤ (ColorAnalysis.rgbToHsl r g b).l ∧ (ColorAnalysis.rgbToHsl r g b).l ≤ 100 := by
  have h0r : (0:ℚ) ≤ (r:ℚ)/255 := by positivity
  have h0g : (0:ℚ) ≤ (g:ℚ)/255 := by positivity
  have h0b : (0:ℚ) ≤ (b:ℚ)/255 := by positivity
  have h1r : (r:ℚ)/255 ≤ 1 := by
    rw [div_le_one (by norm_num : (0:ℚ) < 255)]
    exact_mod_cast hr
  have h1g : (g:ℚ)/255 ≤ 1 := by
    rw [div_le_one (by norm_num : (0:ℚ) < 255)]
    exact_mod_cast hg
  have h1b : (b:ℚ)/255 ≤ 1 := by
    rw [div_le_one (by norm_num : (0:ℚ) < 255)]
    exact_mod_cast hb
  have h0min : 0 ≤ ColorAnalysis.minC ((r:ℚ)/255) ((g:ℚ)/255) ((b:ℚ)/255) :=
    le_min h0r (le_min h0g h0b)
  have h1max : ColorAnalysis.maxC ((r:ℚ)/255) ((g:ℚ)/255) ((b:ℚ)/255) ≤ 1 :=
    max_le h1r (max_le h1g h1b)
  obtain ⟨hH0, hH1⟩ := ColorAnalysis.hslH_bounds ((r:ℚ)/255) ((g:ℚ)/255) ((b:ℚ)/255)
  obtain ⟨hS0, hS1⟩ := ColorAnalysis.hslS_bounds h0min h1max
  obtain ⟨hL0, hL1⟩ := ColorAnalysis.hslL_bounds h0min h1max
  dsimp only [ColorAnalysis.rgbToHsl]
  refine ⟨?_, ?_, ?_, ?_, ?_, ?_⟩
  · exact jsRound_nonneg (by positivity)
  · exact jsRound_le (by push_cast; nlinarith)
  · exact jsRound_nonneg (by positivity)
  · exact jsRound_le (by push_cast; nlinarith)
  · exact jsRound_nonneg (by positivity)
  · exact jsRound_le (by push_cast; nlinarith)

/-- Witness for rgbToHsl_range at the concrete triple (255, 9, 10). -/
theorem rgbToHsl_range_witness :
    0 ≤ (ColorAnalysis.rgbToHsl (255:ℕ) (9:ℕ) (10:ℕ)).h ∧
    (ColorAnalysis.rgbToHsl (255:ℕ) (9:ℕ) (10:ℕ)).h ≤ 360 ∧
    0 ≤ (ColorAnalysis.rgbToHsl (255:ℕ) (9:ℕ) (10:ℕ)).s ∧
    (ColorAnalysis.rgbToHsl (255:ℕ) (9:ℕ) (10:ℕ)).s ≤ 100 ∧
    0 ≤ (ColorAnalysis.rgbToHsl (255:ℕ) (9:ℕ) (10:ℕ)).l ∧
    (ColorAnalysis.rgbToHsl (255:ℕ) (9:ℕ) (10:ℕ)).l ≤ 100 :=
  rgbToHsl_range 255 9 10 (by norm_num) (by norm_num) (by norm_num)

namespace ColorAnalysis

/-- ColorAnalysis.isNeutral: very low saturation, or near-black or
near-white with low-ish saturation. -/
def isNeutral (color : ColorRecord) : Bool :=
  if color.hsl.s < 12 then true
  else if (color.hsl.l < 12 ∨ 92 < color.hsl.l) ∧ color.hsl.s < 20 then true
  else false

/-- ColorAnalysis.hueDifference: circular hue distance in [0, 180]. -/
def hueDifference (h1 h2 : ℚ) : ℚ := min |h1 - h2| (360 - |h1 - h2|)

/-- ColorAnalysis.isWarmHue. -/
def isWarmHue (h : ℚ) : Bool := decide ((0 ≤ h ∧ h < 70) ∨ 300 ≤ h)

/-- ColorAnalysis.isCoolHue. -/
def isCoolHue (h : ℚ) : Bool := decide (170 ≤ h ∧ h < 300)

/-- ColorAnalysis.getTemperature: neutral, warm, or cool; every chromatic
color that is not warm counts as cool. -/
def getTemperature (color : ColorRecord) : String :=
  if isNeutral color then "neutral"
  else if isWarmHue color.hsl.h then "warm" else "cool"

/-- Result record of ColorAnalysis.analyzeTemperature. -/
structure TempAnalysis where
  dominant : String
  warmCount : ℕ
  coolCount : ℕ
  neutralCount : ℕ
  coherence : ℚ
deriving DecidableEq

/-- ColorAnalysis.analyzeTemperature: per-temperature counts, dominant
family, and coherence = max(warm, cool) / (warm + cool) (1 when all
neutral). -/
def analyzeTemperature (colors : List ColorRecord) : TempAnalysis :=
  ⟨if (colors.filter (fun c => getTemperature c == "cool")).length <
      (colors.filter (fun c => getTemperature c == "warm")).length then "warm"
   else if (colors.filter (fun c => getTemperature c == "warm")).length <
      (colors.filter (fun c => getTemperature c == "cool")).length then "cool"
   else "neutral",
   (colors.filter (fun c => getTemperature c == "warm")).length,
   (colors.filter (fun c => getTemperature c == "cool")).length,
   (colors.filter (fun c => getTemperature c == "neutral")).length,
   if 0 < (colors.filter (fun c => getTemperature c == "warm")).length +
      (colors.filter (fun c => getTemperature c == "cool")).length then
     (max (colors.filter (fun c => getTemperature c == "warm")).length
        (colors.filter (fun c => getTemperature c == "cool")).length : ℚ) /
     ((colors.filter (fun c => getTemperature c == "warm")).length +
      (colors.filter (fun c => getTemperature c == "cool")).length : ℚ)
   else 1⟩

/-- The local variable neutrals of analyzeHarmony. -/
def neutralsOf (colors : List ColorRecord) : List ColorRecord :=
  colors.filter (fun c => isNeutral c)

/-- The local variable chromatics of analyzeHarmony. -/
def chromaticsOf (colors : List ColorRecord) : List ColorRecord :=
  colors.filter (fun c => !isNeutral c)

/-- The local variable lightRange of the all-neutral branch. -/
def lightRangeAll (colors : List ColorRecord) : ℚ :=
  listMax (colors.map (fun c => c.hsl.l)) - listMin (colors.map (fun c => c.hsl.l))

/-- The local variable saturations of analyzeHarmony (chromatics only). -/
def satsOf (colors : List ColorRecord) : List ℚ :=
  (chromaticsOf colors).map (fun c => c.hsl.s)

/-- The local variable avgSaturation of analyzeHarmony. -/
def avgChromaticSat (colors : List ColorRecord) : ℚ :=
  (satsOf colors).sum / (satsOf colors).length

/-- The local array differences of analyzeHarmony: pairwise circular hue
differences between chromatic colors. -/
def hueDiffsOf (colors : List ColorRecord) : List ℚ :=
  pairwise2 hueDifference ((chromaticsOf colors).map (fun c => c.hsl.h))

/-- The local variable maxDiff of analyzeHarmony. -/
def maxHueDiff (colors : List ColorRecord) : ℚ := listMax (hueDiffsOf colors)

/-- The local variable minDiff of analyzeHarmony. -/
def minHueDiff (colors : List ColorRecord) : ℚ := listMin (hueDiffsOf colors)

/-- The local variable avgDiff of analyzeHarmony. -/
def avgHueDiff (colors : List ColorRecord) : ℚ :=
  (hueDiffsOf colors).sum / (hueDiffsOf colors).length

/-- The local variable satVariance of the monochromatic branch. -/
def satVarChrom (colors : List ColorRecord) : ℚ :=
  listMax (satsOf colors) - listMin (satsOf colors)

/-- The local variable lightVariance of the monochromatic branch. -/
def lightVarChrom (colors : List ColorRecord) : ℚ :=
  listMax ((chromaticsOf colors).map (fun c => c.hsl.l)) -
  listMin ((chromaticsOf colors).map (fun c => c.hsl.l))

/-- ColorAnalysis.analyzeHarmony: the ordered decision chain of the source,
returning the type tag and score of each branch (explanations omitted). -/
def analyzeHarmony (colors : List ColorRecord) : Harmony :=
  if colors.length < 2 then ⟨"Single Color", 50⟩
  else if (chromaticsOf colors).length = 0 then
    (if 40 < lightRangeAll colors then ⟨"Achromatic Contrast", 85⟩
     else ⟨"Achromatic", 72⟩)
  else if (chromaticsOf colors).length = 1 ∧ 1 ≤ (neutralsOf colors).length then
    (if 50 < ((chromaticsOf colors).headI).hsl.s then ⟨"Neutral-Anchored Pop", 88⟩
     else ⟨"Neutral-Anchored", 80⟩)
  else if maxHueDiff colors < 25 then
    (if 25 < satVarChrom colors ∨ 25 < lightVarChrom colors then ⟨"Monochromatic", 87⟩
     else ⟨"Monochromatic - Flat", 68⟩)
  else if 25 ≤ maxHueDiff colors ∧ maxHueDiff colors ≤ 60 then
    ⟨"Analogous", min 100 (88 + (if 0 < (neutralsOf colors).length then 5 else 0) +
      (if (analyzeTemperature (chromaticsOf colors)).coherence = 1 then 3 else 0))⟩
  else if 2 ≤ (chromaticsOf colors).length ∧
      (hueDiffsOf colors).any (fun d => decide (130 ≤ d) && decide (d ≤ 170)) then
    ⟨"Split-Complementary", 84⟩
  else if 150 ≤ maxHueDiff colors ∧ maxHueDiff colors ≤ 180 then
    (if 60 < avgChromaticSat colors ∧ ¬ 0 < (neutralsOf colors).length then
      ⟨"Complementary - Bold", 75⟩
     else ⟨"Complementary", if 0 < (neutralsOf colors).length then 90 else 84⟩)
  else if 3 ≤ (chromaticsOf colors).length ∧ 3 ≤ (hueDiffsOf colors).length ∧
      ((hueDiffsOf colors).all (fun d => decide (90 ≤ d) && decide (d ≤ 150)) = true ∨
        maxHueDiff colors - minHueDiff colors < 40) ∧
      90 ≤ avgHueDiff colors then
    ⟨"Triadic", 82⟩
  else if 60 ≤ avgHueDiff colors ∧ avgHueDiff colors < 130 ∧ 45 < avgChromaticSat colors then
    (if 1 ≤ (neutralsOf colors).length ∧ (chromaticsOf colors).length ≤ 2 then
      ⟨"Tension (Neutral-Rescued)", 62⟩
     else ⟨"Color Clash",
       if 0 < (analyzeTemperature (chromaticsOf colors)).warmCount ∧
          0 < (analyzeTemperature (chromaticsOf colors)).coolCount then 32 else 40⟩)
  else if (analyzeTemperature (chromaticsOf colors)).coherence = 1 ∧
      2 ≤ (chromaticsOf colors).length then
    ⟨if (analyzeTemperature (chromaticsOf colors)).dominant = "warm" then "Warm Harmony"
      else "Cool Harmony", 78⟩
  else
    ⟨"Mixed", min 70 (jsRound (50 + (analyzeTemperature (chromaticsOf colors)).coherence * 15 +
        (if 0 < (neutralsOf colors).length then 5 else 0)))⟩

end ColorAnalysis

open ColorAnalysis

/-- Two saturated chromatic records at hues 0 and 160 with no neutral:
they satisfy every premise of claim C5 for the Bold variant. -/
def boldPair : List ColorRecord := [⟨⟨0, 80, 50⟩⟩, ⟨⟨160, 80, 50⟩⟩]

/-- Claim C5, counterexample: boldPair has maximum chromatic hue difference
160, which lies in [150, 180], average chromatic saturation 80 over 60, and
no neutral, yet analyzeHarmony does not return Complementary - Bold with
score 75: the Split-Complementary rule fires first (160 lies in [130, 170])
and returns score 84. -/
theorem analyzeHarmony_complementary_counterexample :
    2 ≤ boldPair.length ∧ boldPair.length ≤ 3 ∧
    150 ≤ maxHueDiff boldPair ∧ maxHueDiff boldPair ≤ 180 ∧
    60 < avgChromaticSat boldPair ∧ neutralsOf boldPair = [] ∧
    analyzeHarmony boldPair ≠ ⟨"Complementary - Bold", 75⟩ ∧
    analyzeHarmony boldPair = ⟨"Split-Complementary", 84⟩ := by decide

/-- Claim C5, amended: the Complementary family is only reached when no
pairwise chromatic hue difference lies in [130, 170] (otherwise the earlier
Split-Complementary rule matches first); under that extra premise, with the
maximum difference in [150, 180], average chromatic saturation over 60 with
no neutral yields Complementary - Bold with score 75, and otherwise
Complementary with score 90 with a neutral anchor and 84 without. -/
theorem analyzeHarmony_complementary (colors : List ColorRecord)
    (hlen2 : 2 ≤ colors.length) (hlen3 : colors.length ≤ 3)
    (hchrom : 2 ≤ (chromaticsOf colors).length)
    (hsplit : ∀ d ∈ hueDiffsOf colors, ¬(130 ≤ d ∧ d ≤ 170))
    (hlo : 150 ≤ maxHueDiff colors)
    (hhi : maxHueDiff colors ≤ 180) :
    (60 < avgChromaticSat colors ∧ neutralsOf colors = [] →
      analyzeHarmony colors = ⟨"Complementary - Bold", 75⟩) ∧
    (¬(60 < avgChromaticSat colors ∧ neutralsOf colors = []) →
      analyzeHarmony colors =
        ⟨"Complementary", if 0 < (neutralsOf colors).length then 90 else 84⟩) := by
  have hmain : analyzeHarmony colors =
      (if 60 < avgChromaticSat colors ∧ ¬ 0 < (neutralsOf colors).length then
        (⟨"Complementary - Bold", 75⟩ : Harmony)
       else ⟨"Complementary", if 0 < (neutralsOf colors).length then 90 else 84⟩) := by
    unfold analyzeHarmony
    rw [if_neg (by omega : ¬ colors.length < 2)]
    rw [if_neg (by omega : ¬ (chromaticsOf colors).length = 0)]
    rw [if_neg (by rintro ⟨h1, _⟩; omega)]
    rw [if_neg (by intro h; linarith : ¬ maxHueDiff colors < 25)]
    rw [if_neg (by rintro ⟨_, h⟩; linarith)]
    rw [if_neg ?hsp]
    case hsp =>
      rintro ⟨_, hany⟩
      rw [List.any_eq_true] at hany
      obtain ⟨d, hd, hdd⟩ := hany
      simp only [Bool.and_eq_true, decide_eq_true_eq] at hdd
      exact hsplit d hd hdd
    rw [if_pos ⟨hlo, hhi⟩]
  constructor
  · rintro ⟨hs, hn⟩
    rw [hmain, if_pos ⟨hs, by rw [hn]; simp⟩]
  · intro hn
    rw [hmain, if_neg ?hng]
    case hng =>
      rintro ⟨hs, hn0⟩
      have hlen0 : (neutralsOf colors).length = 0 := by omega
      exact hn ⟨hs, List.length_eq_zero.mp hlen0⟩

/-- Two saturated chromatic records at hues 0 and 175: here the maximum
difference 175 lies in (170, 180] so the Split-Complementary rule is
skipped and the Bold complementary branch is really taken. -/
def boldFarPair : List ColorRecord := [⟨⟨0, 80, 50⟩⟩, ⟨⟨175, 80, 50⟩⟩]

/-- Witness for analyzeHarmony_complementary at boldFarPair. -/
theorem analyzeHarmony_complementary_witness :
    analyzeHarmony boldFarPair = ⟨"Complementary - Bold", 75⟩ :=
  (analyzeHarmony_complementary boldFarPair (by decide) (by decide) (by decide)
    (by decide) (by decide) (by decide)).1 (by decide)

/-- The three records at hues 0, 120, 240 with s = 60, l = 50 named by
claim C6. -/
def triadTriple : List ColorRecord := [⟨⟨0, 60, 50⟩⟩, ⟨⟨120, 60, 50⟩⟩, ⟨⟨240, 60, 50⟩⟩]

/-- Claim C6: the concrete triple at hues 0, 120, 240 (s = 60, l = 50) is
classified Triadic with score 82, and in general at least three chromatics
with all pairwise circular differences in [90, 150] (or spread under 40),
average difference at least 90, and no earlier branch matching, yield
Triadic with score 82. -/
theorem analyzeHarmony_triadic :
    analyzeHarmony triadTriple = ⟨"Triadic", 82⟩ ∧
    ∀ colors : List ColorRecord,
      3 ≤ (chromaticsOf colors).length →
      ¬ maxHueDiff colors < 25 →
      ¬ (25 ≤ maxHueDiff colors ∧ maxHueDiff colors ≤ 60) →
      (∀ d ∈ hueDiffsOf colors, ¬(130 ≤ d ∧ d ≤ 170)) →
      ¬ (150 ≤ maxHueDiff colors ∧ maxHueDiff colors ≤ 180) →
      ((∀ d ∈ hueDiffsOf colors, 90 ≤ d ∧ d ≤ 150) ∨
        maxHueDiff colors - minHueDiff colors < 40) →
      90 ≤ avgHueDiff colors →
      analyzeHarmony colors = ⟨"Triadic", 82⟩ := by
  constructor
  · decide
  · intro colors hchrom hmono hanal hsplit hcomp htri havg
    have hlen : 3 ≤ colors.length :=
      le_trans hchrom (List.length_filter_le _ _)
    have h3 : 3 ≤ (hueDiffsOf colors).length := by
      rw [hueDiffsOf]
      exact pairwise2_length_ge_three _ _ (by rw [List.length_map]; exact hchrom)
    unfold analyzeHarmony
    rw [if_neg (by omega : ¬ colors.length < 2)]
    rw [if_neg (by omega : ¬ (chromaticsOf colors).length = 0)]
    rw [if_neg (by rintro ⟨h1, _⟩; omega)]
    rw [if_neg hmono]
    rw [if_neg hanal]
    rw [if_neg ?hsp]
    case hsp =>
      rintro ⟨_, hany⟩
      rw [List.any_eq_true] at hany
      obtain ⟨d, hd, hdd⟩ := hany
      simp only [Bool.and_eq_true, decide_eq_true_eq] at hdd
      exact hsplit d hd hdd
    rw [if_neg hcomp]
    rw [if_pos ?htr]
    case htr =>
      refine ⟨hchrom, h3, ?_, havg⟩
      rcases htri with h | h
      · left
        rw [List.all_eq_true]
        intro d hd
        simp only [Bool.and_eq_true, decide_eq_true_eq]
        exact h d hd
      · right
        exact h

/-- A second concrete triadic triple at hues 10, 130, 250 with s = 70. -/
def triadTripleW : List ColorRecord := [⟨⟨10, 70, 40⟩⟩, ⟨⟨130, 70, 40⟩⟩, ⟨⟨250, 70, 40⟩⟩]

/-- Witness for the general part of analyzeHarmony_triadic at triadTripleW. -/
theorem analyzeHarmony_triadic_witness :
    analyzeHarmony triadTripleW = ⟨"Triadic", 82⟩ :=
  analyzeHarmony_triadic.2 triadTripleW (by decide) (by decide) (by decide)
    (by decide) (by decide) (by decide) (by decide)

namespace GarmentDetection

/-- The sorted and sliced remainder of the trimmed mean: sort ascending,
then slice(trim, length - trim) with trim = floor(10% of length). -/
def trimmedSlice (values : List ℚ) : List ℚ :=
  ((List.insertionSort (fun a b => a ≤ b) values).drop (values.length / 10)).take
    (values.length - values.length / 10 - values.length / 10)

/-- GarmentDetection _trimmedMean: 128 on empty input; otherwise round the
mean of the trimmed slice, with a fallback to the middle element of the
sorted list if the slice were empty. -/
def trimmedMean (values : List ℚ) : ℚ :=
  if values.length = 0 then 128
  else if (trimmedSlice values).length = 0 then
    (List.insertionSort (fun a b => a ≤ b) values).getD (values.length / 2) 0
  else ((jsRound ((trimmedSlice values).sum / ((trimmedSlice values).length : ℚ)) : ℤ) : ℚ)

/-- The median expression used by the fallback branch, read off the code
(sorted[floor(length / 2)]), as a partial lookup: no value when the index
is out of bounds, which in JS yields undefined. -/
def medianOfSorted (values : List ℚ) : Option ℚ :=
  (List.insertionSort (fun a b => a ≤ b) values).get? (values.length / 2)

/-- The inline trimmedMean of ColorAnalysis.extractAverageColor, which has
no empty-input guard: its fallback indexes the sorted array directly, so on
the empty list it produces no value (undefined in JS). -/
def trimmedMeanCA (values : List ℚ) : Option ℚ :=
  if (trimmedSlice values).length = 0 then medianOfSorted values
  else some ((jsRound ((trimmedSlice values).sum / ((trimmedSlice values).length : ℚ)) : ℤ) : ℚ)

end GarmentDetection

/-- Claim C3, counterexample: on the empty list the guarded trimmed mean of
GarmentDetection returns the fixed value 128, but the empty list has no
median (the code's own median formula selects no element, and 128 is not an
element of the input); the unguarded inline version of ColorAnalysis yields
no value at all.  So trimmedMean([]) does not return that list's own
median. -/
theorem trimmedMean_empty_counterexample :
    GarmentDetection.trimmedMean [] = 128 ∧
    GarmentDetection.medianOfSorted ([] : List ℚ) = none ∧
    GarmentDetection.trimmedMeanCA [] = none ∧
    (128 : ℚ) ∉ ([] : List ℚ) := by decide

set_option maxRecDepth 8000 in
/-- Claim C3, amended: trimmedMean sorts ascending, drops floor(10%) from
each end and returns the rounded mean of the remainder, which is nonempty
for every nonempty input (so the median fallback is unreachable there);
trimmedMean of 100 copies of 50 is 50; on the empty list the function
returns the fixed sentinel 128, not a median. -/
theorem trimmedMean_spec :
    GarmentDetection.trimmedMean [] = 128 ∧
    GarmentDetection.trimmedMean (List.replicate 100 50) = 50 ∧
    ∀ values : List ℚ, values ≠ [] →
      (GarmentDetection.trimmedSlice values ≠ [] ∧
       GarmentDetection.trimmedMean values =
         ((jsRound ((GarmentDetection.trimmedSlice values).sum /
             ((GarmentDetection.trimmedSlice values).length : ℚ)) : ℤ) : ℚ)) := by
  refine ⟨by decide, by decide, ?_⟩
  intro values hne
  have hlen : 1 ≤ values.length := by
    rcases values with _ | ⟨x, xs⟩
    · exact absurd rfl hne
    · simp
  have hslice : (GarmentDetection.trimmedSlice values).length =
      values.length - values.length / 10 - values.length / 10 := by
    unfold GarmentDetection.trimmedSlice
    rw [List.length_take, List.length_drop, List.length_insertionSort]
    omega
  have hpos : ¬ (GarmentDetection.trimmedSlice values).length = 0 := by
    rw [hslice]; omega
  constructor
  · intro h
    exact hpos (by rw [h]; rfl)
  · unfold GarmentDetection.trimmedMean
    rw [if_neg (by omega : ¬ values.length = 0), if_neg hpos]

/-- Witness for trimmedMean_spec at the list [1, 2, 3]. -/
theorem trimmedMean_spec_witness :
    GarmentDetection.trimmedSlice [(1:ℚ), 2, 3] ≠ [] ∧
    GarmentDetection.trimmedMean [(1:ℚ), 2, 3] =
      ((jsRound ((GarmentDetection.trimmedSlice [(1:ℚ), 2, 3]).sum /
          ((GarmentDetection.trimmedSlice [(1:ℚ), 2, 3]).length : ℚ)) : ℤ) : ℚ) :=
  trimmedMean_spec.2.2 [(1:ℚ), 2, 3] (by decide)

namespace GarmentDetection

/-- A dominant-color entry as consumed by _isPattern (rgb, hex omitted). -/
structure DomColor where
  hsl : HSLq
  frequency : ℚ
deriving DecidableEq

/-- GarmentDetection _isPattern: false for fewer than two dominant colors
or insufficient frequencies; otherwise true when the top two colors are
visually distinct. -/
def isPattern (dominantColors : List DomColor) : Bool :=
  match dominantColors with
  | c1 :: c2 :: _ =>
    if c1.frequency < 0.25 ∨ c2.frequency < 0.15 then false
    else
      decide (25 < ColorAnalysis.hueDifference c1.hsl.h c2.hsl.h) ||
      decide (25 < |c1.hsl.l - c2.hsl.l|) ||
      decide (30 < |c1.hsl.s - c2.hsl.s|)
  | _ => false

end GarmentDetection

/-- Claim C7: isPattern is true exactly when the first two dominant colors
have frequencies at least 0.25 and 0.15 and are visually distinct (hue
difference over 25, or lightness difference over 25, or saturation
difference over 30); shorter lists give false; the two concrete examples of
the claim evaluate as stated. -/
theorem isPattern_spec :
    (∀ (c1 c2 : GarmentDetection.DomColor) (rest : List GarmentDetection.DomColor),
      GarmentDetection.isPattern (c1 :: c2 :: rest) = true ↔
        (0.25 ≤ c1.frequency ∧ 0.15 ≤ c2.frequency ∧
          (25 < ColorAnalysis.hueDifference c1.hsl.h c2.hsl.h ∨
           25 < |c1.hsl.l - c2.hsl.l| ∨ 30 < |c1.hsl.s - c2.hsl.s|))) ∧
    GarmentDetection.isPattern [] = false ∧
    (∀ c1, GarmentDetection.isPattern [c1] = false) ∧
    GarmentDetection.isPattern [⟨⟨0, 50, 50⟩, 0.3⟩, ⟨⟨40, 50, 50⟩, 0.2⟩] = true ∧
    GarmentDetection.isPattern [⟨⟨0, 50, 50⟩, 0.3⟩, ⟨⟨5, 55, 55⟩, 0.2⟩] = false := by
  refine ⟨?_, by decide, fun c1 => rfl, by decide, by decide⟩
  intro c1 c2 rest
  simp only [GarmentDetection.isPattern]
  split_ifs with h
  · constructor
    · intro hf
      exact absurd hf (by simp)
    · rintro ⟨h1, h2, _⟩
      rcases h with h | h
      · exact absurd h1 (not_le.mpr h)
      · exact absurd h2 (not_le.mpr h)
  · push_neg at h
    obtain ⟨h1, h2⟩ := h
    simp only [Bool.or_eq_true, decide_eq_true_eq]
    tauto

namespace GarmentDetection

/-- An RGBA pixel of the canvas buffer (JS numbers as rationals). -/
structure RGBA where
  r : ℚ
  g : ℚ
  b : ℚ
  a : ℚ

/-- A canvas: dimensions plus pixel lookup by column x and row y. -/
structure Canvas where
  width : ℕ
  height : ℕ
  px : ℕ → ℕ → RGBA

/-- A sampling rectangle as handed to _getPixelData. -/
structure Rect where
  x : ℚ
  y : ℚ
  width : ℚ
  height : ℚ

/-- An opaque sample pixel, the element type of the pixel lists. -/
structure Pixel where
  r : ℚ
  g : ℚ
  b : ℚ
deriving DecidableEq

/-- The clamped x = max(0, Math.round(rect.x)) of _getPixelData. -/
def clampX (rect : Rect) : ℤ := max 0 (jsRound rect.x)

/-- The clamped y = max(0, Math.round(rect.y)) of _getPixelData. -/
def clampY (rect : Rect) : ℤ := max 0 (jsRound rect.y)

/-- The clamped width w = min(Math.round(rect.width), canvas.width - x). -/
def clampW (c : Canvas) (rect : Rect) : ℤ :=
  min (jsRound rect.width) ((c.width : ℤ) - clampX rect)

/-- The clamped height h = min(Math.round(rect.height), canvas.height - y). -/
def clampH (c : Canvas) (rect : Rect) : ℤ :=
  min (jsRound rect.height) ((c.height : ℤ) - clampY rect)

/-- GarmentDetection _getPixelData: clamp the rectangle, then walk the RGBA
byte array in steps of 16 (every 4th pixel of the w-by-h block, row major),
skipping pixels whose alpha is below 128. -/
def getPixelData (c : Canvas) (rect : Rect) : List Pixel :=
  if clampW c rect ≤ 0 ∨ clampH c rect ≤ 0 then []
  else
    ((List.range (((clampW c rect).toNat * (clampH c rect).toNat + 3) / 4)).map
      (fun k => c.px ((clampX rect).toNat + (4 * k) % (clampW c rect).toNat)
                     ((clampY rect).toNat + (4 * k) / (clampW c rect).toNat))).filterMap
      (fun p => if p.a < 128 then none else some ⟨p.r, p.g, p.b⟩)

/-- One HSL skin range of the configuration. -/
structure SkinRange where
  hMin : ℤ
  hMax : ℤ
  sMin : ℤ
  sMax : ℤ
  lMin : ℤ
  lMax : ℤ

/-- The two configured skin ranges (light-to-medium and darker tones). -/
def skinRanges : List SkinRange := [⟨5, 45, 15, 70, 20, 80⟩, ⟨15, 40, 20, 60, 10, 50⟩]

/-- GarmentDetection _isSkinColor: the HSL of the pixel falls inside one of
the configured ranges. -/
def isSkinColor (p : Pixel) : Bool :=
  skinRanges.any (fun range =>
    decide (range.hMin ≤ (ColorAnalysis.rgbToHsl p.r p.g p.b).h) &&
    decide ((ColorAnalysis.rgbToHsl p.r p.g p.b).h ≤ range.hMax) &&
    decide (range.sMin ≤ (ColorAnalysis.rgbToHsl p.r p.g p.b).s) &&
    decide ((ColorAnalysis.rgbToHsl p.r p.g p.b).s ≤ range.sMax) &&
    decide (range.lMin ≤ (ColorAnalysis.rgbToHsl p.r p.g p.b).l) &&
    decide ((ColorAnalysis.rgbToHsl p.r p.g p.b).l ≤ range.lMax))

/-- GarmentDetection _rejectSkinPixels. -/
def rejectSkinPixels (pixels : List Pixel) : List Pixel :=
  pixels.filter (fun p => !isSkinColor p)

/-- GarmentDetection _getDominantFromPixels: the 128-gray sentinel on an
empty list, otherwise the per-channel trimmed mean. -/
def getDominantFromPixels (pixels : List Pixel) : Pixel :=
  if pixels.length = 0 then ⟨128, 128, 128⟩
  else ⟨trimmedMean (pixels.map (fun p => p.r)),
        trimmedMean (pixels.map (fun p => p.g)),
        trimmedMean (pixels.map (fun p => p.b))⟩

/-- The rgb field of one zone record of extractZoneColors: sample, reject
skin pixels, fall back to the unfiltered list when filtering removed
everything, and take the dominant color. -/
def zoneRgb (c : Canvas) (rect : Rect) : Pixel :=
  getDominantFromPixels
    (if 0 < (rejectSkinPixels (getPixelData c rect)).length then
      rejectSkinPixels (getPixelData c rect)
     else getPixelData c rect)

/-- The three sampling rectangles handed to extractZoneColors. -/
structure Zones where
  top : Rect
  bottom : Rect
  shoes : Rect

/-- GarmentDetection extractZoneColors, restricted to the rgb field of each
zone record (hex, name, confidence and dominantColors are data derived from
the same pixel lists). -/
def extractZoneColors (c : Canvas) (z : Zones) : Pixel × Pixel × Pixel :=
  (zoneRgb c z.top, zoneRgb c z.bottom, zoneRgb c z.shoes)

end GarmentDetection

/-- Claim C4: a zone whose sampling rectangle yields zero sampled pixels
(for instance all alpha below 128, or an empty clamped rectangle) receives
the neutral-gray sentinel color 128, 128, 128 instead of failing, and on an
all-transparent canvas all three zones receive the sentinel. -/
theorem extractZoneColors_sentinel (c : GarmentDetection.Canvas)
    (rect : GarmentDetection.Rect) (z : GarmentDetection.Zones) :
    (GarmentDetection.getPixelData c rect = [] →
      GarmentDetection.zoneRgb c rect = ⟨128, 128, 128⟩) ∧
    ((∀ x y, (c.px x y).a < 128) →
      GarmentDetection.extractZoneColors c z =
        (⟨128, 128, 128⟩, ⟨128, 128, 128⟩, ⟨128, 128, 128⟩)) := by
  have hz : ∀ r : GarmentDetection.Rect, GarmentDetection.getPixelData c r = [] →
      GarmentDetection.zoneRgb c r = ⟨128, 128, 128⟩ := by
    intro r h
    simp [GarmentDetection.zoneRgb, h, GarmentDetection.rejectSkinPixels,
      GarmentDetection.getDominantFromPixels]
  have htrans : (∀ x y, (c.px x y).a < 128) →
      ∀ r : GarmentDetection.Rect, GarmentDetection.getPixelData c r = [] := by
    intro ha r
    unfold GarmentDetection.getPixelData
    split_ifs with h
    · rfl
    · rw [List.filterMap_eq_nil_iff]
      intro p hp
      rw [List.mem_map] at hp
      obtain ⟨k, _, rfl⟩ := hp
      rw [if_pos (ha _ _)]
  refine ⟨hz rect, fun ha => ?_⟩
  simp only [GarmentDetection.extractZoneColors]
  rw [hz z.top (htrans ha z.top), hz z.bottom (htrans ha z.bottom),
    hz z.shoes (htrans ha z.shoes)]

/-- A fully transparent 4 by 4 canvas. -/
def clearCanvas : GarmentDetection.Canvas := ⟨4, 4, fun _ _ => ⟨0, 0, 0, 0⟩⟩

/-- Three sampling rectangles inside the transparent canvas. -/
def clearZones : GarmentDetection.Zones := ⟨⟨0, 0, 4, 2⟩, ⟨0, 2, 4, 1⟩, ⟨0, 3, 4, 1⟩⟩

/-- Witness for extractZoneColors_sentinel on the transparent canvas. -/
theorem extractZoneColors_sentinel_witness :
    GarmentDetection.extractZoneColors clearCanvas clearZones =
      (⟨128, 128, 128⟩, ⟨128, 128, 128⟩, ⟨128, 128, 128⟩) :=
  (extractZoneColors_sentinel clearCanvas ⟨0, 0, 4, 4⟩ clearZones).2
    (fun x y => by norm_num [clearCanvas])

namespace GarmentDetection

/-- stripY of _detectBodyColumn: floor(height * 0.3). -/
def stripY (c : Canvas) : ℕ := c.height * 3 / 10

/-- stripH of _detectBodyColumn: floor(height * 0.4). -/
def stripH (c : Canvas) : ℕ := c.height * 4 / 10

/-- Number of rows sampled per column (every 4th row of the strip). -/
def rowSamples (c : Canvas) : ℕ := (stripH c + 3) / 4

/-- Average luminance of column x over the sampled strip rows with the
luma weights 0.299, 0.587, 0.114; 128 when no row was sampled. -/
def columnBrightness (c : Canvas) (x : ℕ) : ℚ :=
  if 0 < rowSamples c then
    ((List.range (rowSamples c)).map (fun k =>
      (c.px x (stripY c + 4 * k)).r * 0.299 + (c.px x (stripY c + 4 * k)).g * 0.587 +
      (c.px x (stripY c + 4 * k)).b * 0.114)).sum / (rowSamples c : ℚ)
  else 128

/-- Horizontal central-difference gradient magnitude per column, zero at
the borders (the Float32Array is zero-initialised there). -/
def edgeStrength (c : Canvas) (x : ℕ) : ℚ :=
  if 1 ≤ x ∧ x + 1 < c.width then
    |columnBrightness c (x + 1) - columnBrightness c (x - 1)|
  else 0

/-- windowSize of _detectBodyColumn: floor(width * 0.5). -/
def windowSize (c : Canvas) : ℕ := c.width * 5 / 10

/-- Sum of the edge strengths over the window starting at column i. -/
def windowSum (c : Canvas) (i : ℕ) : ℚ :=
  ((List.range (windowSize c)).map (fun j => edgeStrength c (i + j))).sum

/-- The sliding-window loop of _detectBodyColumn as the pair (maxSum,
maxStart).  The source keeps a running sum updated by one subtraction and
one addition per step; over exact rationals that running sum at offset i
equals windowSum i, so the loop is this fold over i = 1 .. width -
windowSize with strict-improvement updates. -/
def maxWindow (c : Canvas) : ℚ × ℕ :=
  (List.range' 1 (c.width - windowSize c)).foldl
    (fun acc i => if acc.1 < windowSum c i then (windowSum c i, i) else acc)
    (windowSum c 0, 0)

/-- The padding floor(width * 0.05) added around the detected window. -/
def padding (c : Canvas) : ℕ := c.width * 5 / 100

/-- GarmentDetection _detectBodyColumn: null when the strip is shorter than
10 rows or the image narrower than 20 columns, when the window is narrower
than 10 columns, or when the best window's average edge strength is below
3; otherwise the padded window (natural subtraction plays the role of
max(0, maxStart - padding)). -/
def detectBodyColumn (c : Canvas) : Option (ℕ × ℕ) :=
  if stripH c < 10 ∨ c.width < 20 then none
  else if windowSize c < 10 then none
  else if (maxWindow c).1 / (windowSize c : ℚ) < 3 then none
  else
    some ((maxWindow c).2 - padding c,
      min (c.width - ((maxWindow c).2 - padding c)) (windowSize c + padding c * 2))

end GarmentDetection

/-- Claim C8: _detectBodyColumn reports no detection (null) rather than
erroring when the strip height floor(0.4 height) is below 10 or the width
below 20, and likewise when the maximum sliding-window edge sum divided by
the window size is below 3. -/
theorem detectBodyColumn_none (c : GarmentDetection.Canvas) :
    (GarmentDetection.stripH c < 10 ∨ c.width < 20 →
      GarmentDetection.detectBodyColumn c = none) ∧
    (¬(GarmentDetection.stripH c < 10 ∨ c.width < 20) →
      (GarmentDetection.maxWindow c).1 / (GarmentDetection.windowSize c : ℚ) < 3 →
      GarmentDetection.detectBodyColumn c = none) := by
  constructor
  · intro h
    unfold GarmentDetection.detectBodyColumn
    rw [if_pos h]
  · intro h havg
    unfold GarmentDetection.detectBodyColumn
    rw [if_neg h]
    by_cases hw : GarmentDetection.windowSize c < 10
    · rw [if_pos hw]
    · rw [if_neg hw, if_pos havg]

/-- A uniformly black, fully opaque canvas of width 20 and height 25. -/
def blackCanvas : GarmentDetection.Canvas := ⟨20, 25, fun _ _ => ⟨0, 0, 0, 255⟩⟩

set_option maxRecDepth 200000 in
/-- Witness for detectBodyColumn_none: on the uniform canvas every edge
strength is zero, so the average edge strength of the best window is 0 < 3
and no body column is detected. -/
theorem detectBodyColumn_none_witness :
    GarmentDetection.detectBodyColumn blackCanvas = none :=
  (detectBodyColumn_none blackCanvas).2 (by decide) (by decide)

/-- A JavaScript double as produced by the aggregate statistics of the
scoring engine: a finite value (idealised as a rational), NaN, or a signed
infinity.  Dividing the zero sum of an empty list by its zero length gives
NaN, and Math.max / Math.min over an empty spread give the signed
infinities. -/
inductive JSNum where
  | fin (q : ℚ)
  | nan
  | posInf
  | negInf
deriving DecidableEq

/-- IEEE subtraction on the special values: NaN propagates, infinities of
the same sign cancel to NaN, and an infinity dominates a finite value. -/
def JSNum.sub : JSNum → JSNum → JSNum
  | .fin a, .fin b => .fin (a - b)
  | .nan, _ => .nan
  | _, .nan => .nan
  | .posInf, .posInf => .nan
  | .negInf, .negInf => .nan
  | .posInf, _ => .posInf
  | .negInf, _ => .negInf
  | .fin _, .posInf => .negInf
  | .fin _, .negInf => .posInf

/-- The JavaScript comparison c < x: false whenever x is NaN or negative
infinity, true for positive infinity. -/
def JSNum.gtq : JSNum → ℚ → Bool
  | .fin a, c => decide (c < a)
  | .posInf, _ => true
  | _, _ => false

/-- Math.max over a spread array: negative infinity on the empty spread. -/
def jsMaxSpread : List ℚ → JSNum
  | [] => .negInf
  | x :: xs => .fin (listMax (x :: xs))

/-- Math.min over a spread array: positive infinity on the empty spread. -/
def jsMinSpread : List ℚ → JSNum
  | [] => .posInf
  | x :: xs => .fin (listMin (x :: xs))

/-- sum / length of a list of JS numbers: on the empty list this is the
division 0 / 0, which is NaN. -/
def jsAvg : List ℚ → JSNum
  | [] => .nan
  | x :: xs => .fin ((x :: xs).sum / ((x :: xs).length : ℚ))

namespace Scoring

/-- Scoring _isNeutral: saturation below 12 only. -/
def isNeutral (color : ColorRecord) : Bool := decide (color.hsl.s < 12)

/-- Scoring _isWarmHue. -/
def isWarmHue (h : ℚ) : Bool := decide ((0 ≤ h ∧ h < 70) ∨ 300 ≤ h)

/-- Scoring _isCoolHue. -/
def isCoolHue (h : ℚ) : Bool := decide (170 ≤ h ∧ h < 300)

/-- Scoring _bellCurve: exp(-0.5 ((value - center) / spread) squared),
with Math.exp embedded as the real exponential. -/
noncomputable def bellCurve (value center spread : ℝ) : ℝ :=
  Real.exp (-0.5 * ((value - center) / spread) ^ 2)

/-- Math.round over the reals, for the bell-curve point computations. -/
noncomputable def jsRoundR (x : ℝ) : ℤ := ⌊x + 1/2⌋

/-- Scoring _pairwiseContrasts: pairwise absolute lightness differences. -/
def pairwiseContrasts (colors : List ColorRecord) : List ℚ :=
  pairwise2 (fun a b => |a.hsl.l - b.hsl.l|) colors

/-- The harmony points: round(harmonyResult.score * 0.30). -/
def harmonyPoints (harmonyResult : Harmony) : ℤ :=
  jsRound ((harmonyResult.score : ℚ) * 0.30)

/-- The average pairwise lightness contrast. -/
def avgContrast (colors : List ColorRecord) : ℚ :=
  (pairwiseContrasts colors).sum / ((pairwiseContrasts colors).length : ℚ)

/-- The contrast points: bell curve centred at 38 with spread 18, scaled
to 18 points and rounded; 0 when there is no pair. -/
noncomputable def contrastPoints (colors : List ColorRecord) : ℤ :=
  if 0 < (pairwiseContrasts colors).length then
    jsRoundR (bellCurve ((avgContrast colors : ℚ) : ℝ) 38 18 * 18)
  else 0

/-- The average saturation over all colors: NaN (0 / 0) on the empty
list. -/
def avgSat (colors : List ColorRecord) : JSNum :=
  jsAvg (colors.map (fun c => c.hsl.s))

/-- The saturation variance: max minus min saturation over the spread
arrays, hence -Infinity minus +Infinity = -Infinity on the empty list. -/
def satVariance (colors : List ColorRecord) : JSNum :=
  (jsMaxSpread (colors.map (fun c => c.hsl.s))).sub
    (jsMinSpread (colors.map (fun c => c.hsl.s)))

/-- The bell curve applied to a JS aggregate: finite values go through
the real bell curve; for an infinite argument the scaled square is
+Infinity, so exp(-Infinity) = 0; for NaN the result is NaN (none). -/
noncomputable def bellJS (value : JSNum) (center spread : ℝ) : Option ℝ :=
  match value with
  | .fin q => some (bellCurve (q : ℝ) center spread)
  | .nan => none
  | .posInf => some 0
  | .negInf => some 0

/-- The intensity points: Math.round(bell(satVariance) * 8 + bell(avgSat)
* 7); on the empty list avgSat is NaN, so the sum and its rounding are NaN
(none). -/
noncomputable def intensityPoints (colors : List ColorRecord) : Option ℤ :=
  match bellJS (satVariance colors) 35 20, bellJS (avgSat colors) 45 25 with
  | some a, some b => some (jsRoundR (a * 8 + b * 7))
  | _, _ => none

/-- The chromatic colors under the scoring engine's own neutral test. -/
def chromaticColors (colors : List ColorRecord) : List ColorRecord :=
  colors.filter (fun c => !isNeutral c)

/-- Warm chromatic count of the scoring engine. -/
def warmCount (colors : List ColorRecord) : ℕ :=
  ((chromaticColors colors).filter (fun c => isWarmHue c.hsl.h)).length

/-- Cool chromatic count of the scoring engine. -/
def coolCount (colors : List ColorRecord) : ℕ :=
  ((chromaticColors colors).filter (fun c => isCoolHue c.hsl.h)).length

/-- The coherence points: 12, 8 or 4 by warm/cool dominance, or 10 when
there are fewer than two chromatic colors. -/
def coherencePoints (colors : List ColorRecord) : ℤ :=
  if 2 ≤ (chromaticColors colors).length then
    (if (max (warmCount colors) (coolCount colors) : ℚ) /
        ((chromaticColors colors).length : ℚ) = 1 then 12
     else if 0.66 ≤ (max (warmCount colors) (coolCount colors) : ℚ) /
        ((chromaticColors colors).length : ℚ) then 8
     else 4)
  else 10

/-- The neutral count of the scoring engine. -/
def neutralCount (colors : List ColorRecord) : ℕ :=
  (colors.filter (fun c => isNeutral c)).length

/-- The anchor points: the five-tier discrete rule. -/
def anchorPoints (colors : List ColorRecord) : ℤ :=
  if neutralCount colors = 1 ∧ 1 ≤ (chromaticColors colors).length then 10
  else if neutralCount colors = 2 ∧ colors.length = 3 then 7
  else if neutralCount colors = 0 ∧ (avgSat colors).gtq 50 = true then 5
  else if neutralCount colors = colors.length then 8
  else 6

/-- The mean lightness over all colors: NaN (0 / 0) on the empty list. -/
def meanLight (colors : List ColorRecord) : JSNum :=
  jsAvg (colors.map (fun c => c.hsl.l))

/-- The lightness variance: the averaged sum of squared deviations.  On
the empty list the mean is NaN and the division is again 0 / 0 = NaN; the
aggregate is an average of squares, so it is never an infinity. -/
def lightVariance (colors : List ColorRecord) : JSNum :=
  match meanLight colors with
  | .fin m => .fin ((colors.map (fun c => (c.hsl.l - m) ^ 2)).sum / (colors.length : ℚ))
  | _ => .nan

/-- The lightness standard deviation, with Math.sqrt embedded as the real
square root; Math.sqrt(NaN) is NaN (none). -/
noncomputable def lightStdDev (colors : List ColorRecord) : Option ℝ :=
  match lightVariance colors with
  | .fin q => some (Real.sqrt (q : ℝ))
  | _ => none

open Classical in
/-- The polish points: 15 minus the clash, oversaturation, temperature and
lightness-spread penalties, plus the intent bonuses, clamped to [0, 15].
The comparison of the real standard deviation with 30 is classical. -/
noncomputable def polishPoints (colors : List ColorRecord) (harmonyResult : Harmony) : ℤ :=
  max 0 (min 15 (15 - (if harmonyResult.type = "Color Clash" then 8 else 0)
    - (if 3 ≤ (colors.filter (fun c => decide (75 < c.hsl.s))).length then 5 else 0)
    - (if 2 ≤ (chromaticColors colors).length ∧ 0 < warmCount colors ∧
          0 < coolCount colors ∧
          |(warmCount colors : ℤ) - (coolCount colors : ℤ)| ≤ 1 then 4 else 0)
    - (if (match lightStdDev colors with | some r => (30 : ℝ) < r | none => False)
        then 3 else 0)
    + (if harmonyResult.type = "Analogous" then 3
       else if harmonyResult.type = "Complementary" then 2
       else if harmonyResult.type = "Monochromatic" ∧
          2 ≤ (chromaticColors colors).length then 2
       else 0)))

/-- The accumulated score before the final clamp: the sum of the six
point components in the order the source adds them; when the intensity
points are NaN the accumulated score is NaN (none). -/
noncomputable def outfitRawScore (colors : List ColorRecord)
    (harmonyResult : Harmony) : Option ℤ :=
  match intensityPoints colors with
  | some i => some (harmonyPoints harmonyResult + contrastPoints colors + i +
      coherencePoints colors + anchorPoints colors + polishPoints colors harmonyResult)
  | none => none

/-- One breakdown entry: category, points and maximum (the detail string
is presentation data); none models a NaN points value. -/
structure BreakdownItem where
  category : String
  points : Option ℤ
  maxPts : ℤ
deriving DecidableEq

/-- ScoreResult: the clamped total (none models a NaN total) plus the
six-entry breakdown. -/
structure ScoreResult where
  total : Option ℤ
  breakdown : List BreakdownItem

/-- Scoring calculateOutfitScore: six independently computed point
components; the total is the clamp of their (already integral) sum to
[0, 100] (Math.round of an integer sum is that sum), and Math.min,
Math.max and Math.round all propagate NaN, so a NaN accumulated score
yields a NaN total. -/
noncomputable def calculateOutfitScore (colors : List ColorRecord)
    (harmonyResult : Harmony) : ScoreResult :=
  ⟨(outfitRawScore colors harmonyResult).map (fun s => max 0 (min 100 s)),
   [⟨"Color Harmony", some (harmonyPoints harmonyResult), 30⟩,
    ⟨"Contrast Balance", some (contrastPoints colors), 18⟩,
    ⟨"Color Intensity", intensityPoints colors, 15⟩,
    ⟨"Warm/Cool Coherence", some (coherencePoints colors), 12⟩,
    ⟨"Neutral Anchoring", some (anchorPoints colors), 10⟩,
    ⟨"Professional Polish", some (polishPoints colors harmonyResult), 15⟩]⟩

/-- Scoring getGrade, projected to the letter (color and description are
presentation data attached one-to-one to the letter). -/
def getGrade (score : ℤ) : String :=
  if 95 ≤ score then "S"
  else if 90 ≤ score then "A+"
  else if 85 ≤ score then "A"
  else if 80 ≤ score then "B+"
  else if 75 ≤ score then "B"
  else if 70 ≤ score then "C+"
  else if 65 ≤ score then "C"
  else if 58 ≤ score then "D+"
  else if 50 ≤ score then "D"
  else if 40 ≤ score then "E"
  else "F"

end Scoring

/-- Claim C2, counterexample: on the empty color list the source computes
avgSat = 0 / 0 = NaN and satVariance = -Infinity from the empty spreads,
the intensity points become Math.round(NaN) = NaN, and the returned total
is NaN (Math.min, Math.max and Math.round all propagate NaN) -- not a
number in [0, 100], refuting the claim's quantification over every list. -/
theorem calculateOutfitScore_empty_counterexample :
    Scoring.avgSat [] = JSNum.nan ∧
    Scoring.satVariance [] = JSNum.negInf ∧
    Scoring.intensityPoints [] = none ∧
    (Scoring.calculateOutfitScore [] ⟨"Single Color", 50⟩).total = none ∧
    ¬ ∃ t : ℤ, (Scoring.calculateOutfitScore [] ⟨"Single Color", 50⟩).total = some t ∧
        0 ≤ t ∧ t ≤ 100 := by
  refine ⟨rfl, rfl, rfl, rfl, ?_⟩
  rintro ⟨t, ht, -, -⟩
  rw [show (Scoring.calculateOutfitScore []
    (⟨"Single Color", 50⟩ : Harmony)).total = none from rfl] at ht
  exact Option.noConfusion ht

/-- Claim C2, amended: for every nonempty color list and every harmony
result the breakdown of calculateOutfitScore has exactly six entries, none
of whose points is NaN, and the total equals the sum of their points
clamped to [0, 100]; in particular the total is a number in [0, 100]
whatever scoring branches were taken.  On the empty list the source
instead returns a NaN total (see the counterexample). -/
theorem calculateOutfitScore_total (colors : List ColorRecord) (hr : Harmony)
    (hne : colors ≠ []) :
    (Scoring.calculateOutfitScore colors hr).breakdown.length = 6 ∧
    (∀ item ∈ (Scoring.calculateOutfitScore colors hr).breakdown, item.points ≠ none) ∧
    (Scoring.calculateOutfitScore colors hr).total =
      some (max 0 (min 100 (((Scoring.calculateOutfitScore colors hr).breakdown.map
        (fun item => item.points.getD 0)).sum))) ∧
    ∃ t : ℤ, (Scoring.calculateOutfitScore colors hr).total = some t ∧
      0 ≤ t ∧ t ≤ 100 := by
  obtain ⟨c, cs, rfl⟩ : ∃ c cs, colors = c :: cs := by
    rcases colors with _ | ⟨c, cs⟩
    · exact absurd rfl hne
    · exact ⟨c, cs, rfl⟩
  have hint : ∃ i, Scoring.intensityPoints (c :: cs) = some i := by
    simp only [Scoring.intensityPoints, Scoring.satVariance, Scoring.avgSat,
      List.map_cons, jsMaxSpread, jsMinSpread, jsAvg, JSNum.sub, Scoring.bellJS]
    exact ⟨_, rfl⟩
  obtain ⟨i, hi⟩ := hint
  refine ⟨rfl, ?_, ?_, ?_⟩
  · intro item hitem
    simp only [Scoring.calculateOutfitScore, List.mem_cons, List.not_mem_nil,
      or_false] at hitem
    rcases hitem with rfl | rfl | rfl | rfl | rfl | rfl
    · simp
    · simp
    · simp [hi]
    · simp
    · simp
    · simp
  · simp only [Scoring.calculateOutfitScore, Scoring.outfitRawScore, hi,
      List.map_cons, List.map_nil, List.sum_cons, List.sum_nil, Option.getD_some,
      Option.map_some']
    congr 2
    omega
  · simp only [Scoring.calculateOutfitScore, Scoring.outfitRawScore, hi,
      Option.map_some']
    exact ⟨_, rfl, le_max_left _ _, max_le (by norm_num) (min_le_left _ _)⟩

/-- Witness for calculateOutfitScore_total at a concrete singleton list. -/
theorem calculateOutfitScore_total_witness :
    (Scoring.calculateOutfitScore [⟨⟨0, 50, 50⟩⟩] ⟨"Single Color", 50⟩).breakdown.length = 6 ∧
    (∀ item ∈ (Scoring.calculateOutfitScore [⟨⟨0, 50, 50⟩⟩]
        ⟨"Single Color", 50⟩).breakdown, item.points ≠ none) ∧
    (Scoring.calculateOutfitScore [⟨⟨0, 50, 50⟩⟩] ⟨"Single Color", 50⟩).total =
      some (max 0 (min 100 (((Scoring.calculateOutfitScore [⟨⟨0, 50, 50⟩⟩]
        ⟨"Single Color", 50⟩).breakdown.map (fun item => item.points.getD 0)).sum))) ∧
    ∃ t : ℤ, (Scoring.calculateOutfitScore [⟨⟨0, 50, 50⟩⟩]
        ⟨"Single Color", 50⟩).total = some t ∧ 0 ≤ t ∧ t ≤ 100 :=
  calculateOutfitScore_total [⟨⟨0, 50, 50⟩⟩] ⟨"Single Color", 50⟩ (by simp)

/-- Claim C9: getGrade is the 11-tier lookup with boundaries inclusive on
the lower bound; 95 gives S, 94 gives A+, 39 gives F, and every tier
boundary is included in its own tier. -/
theorem getGrade_boundaries :
    Scoring.getGrade 95 = "S" ∧ Scoring.getGrade 94 = "A+" ∧ Scoring.getGrade 39 = "F" ∧
    Scoring.getGrade 90 = "A+" ∧ Scoring.getGrade 89 = "A" ∧ Scoring.getGrade 85 = "A" ∧
    Scoring.getGrade 84 = "B+" ∧ Scoring.getGrade 80 = "B+" ∧ Scoring.getGrade 79 = "B" ∧
    Scoring.getGrade 75 = "B" ∧ Scoring.getGrade 74 = "C+" ∧ Scoring.getGrade 70 = "C+" ∧
    Scoring.getGrade 69 = "C" ∧ Scoring.getGrade 65 = "C" ∧ Scoring.getGrade 64 = "D+" ∧
    Scoring.getGrade 58 = "D+" ∧ Scoring.getGrade 57 = "D" ∧ Scoring.getGrade 50 = "D" ∧
    Scoring.getGrade 49 = "E" ∧ Scoring.getGrade 40 = "E" := by decide

/-- Claim C10: the scoring engine's neutral test (s < 12) implies the
harmony classifier's isNeutral, and the converse fails: every color with
12 ≤ s < 20 and lightness below 12 or above 92 is neutral for the harmony
classifier yet chromatic for the scoring engine. -/
theorem neutral_predicates_refinement :
    (∀ c : ColorRecord, Scoring.isNeutral c = true → ColorAnalysis.isNeutral c = true) ∧
    (∀ c : ColorRecord, 12 ≤ c.hsl.s → c.hsl.s < 20 → (c.hsl.l < 12 ∨ 92 < c.hsl.l) →
      ColorAnalysis.isNeutral c = true ∧ Scoring.isNeutral c = false) := by
  constructor
  · intro c h
    rw [Scoring.isNeutral, decide_eq_true_eq] at h
    unfold ColorAnalysis.isNeutral
    rw [if_pos h]
  · intro c h1 h2 h3
    constructor
    · unfold ColorAnalysis.isNeutral
      rw [if_neg (not_lt.mpr h1), if_pos ⟨h3, h2⟩]
    · rw [Scoring.isNeutral, decide_eq_false_iff_not]
      exact not_lt.mpr h1

/-- Witness for neutral_predicates_refinement: saturation 5 for the
implication, saturation 15 with lightness 5 for the converse failure. -/
theorem neutral_predicates_refinement_witness :
    ColorAnalysis.isNeutral ⟨⟨0, 5, 50⟩⟩ = true ∧
    (ColorAnalysis.isNeutral ⟨⟨0, 15, 5⟩⟩ = true ∧ Scoring.isNeutral ⟨⟨0, 15, 5⟩⟩ = false) :=
  ⟨neutral_predicates_refinement.1 ⟨⟨0, 5, 50⟩⟩ (by decide),
   neutral_predicates_refinement.2 ⟨⟨0, 15, 5⟩⟩ (by norm_num) (by norm_num) (by norm_num)⟩
